import Mathlib

/-!
Verification development for the chat-bot-rag repository.

This file gives a shallow embedding, in Lean 4, of the parts of the source
that the specification's claims are about:

* `app/services/llm_service.py` — `ToolCall`, `LLMResponse`,
  `ConversationHistory` (bounded per-session message list with system-prompt
  pinning and trimming);
* `app/services/chat_orchestrator.py` — the context-augmentation phase of
  `process_message`, `_run_conversation_loop` (the LLM ⇄ tool loop with a
  round budget), `_execute_tool_call` (the per-call error boundary);
* `app/services/tool_router.py` — the static tool map, argument mapping,
  `execute`, and `_serialize_result`;
* `app/services/context_service.py` — the threshold filter and ordering of
  `retrieve_context`, and `format_context_for_prompt`;
* `app/utils/exceptions.py` — the exception hierarchy, modelled as an
  inductive of the concrete classes that the embedded code can raise.

Python dynamic values are modelled by `PyVal`, JSON documents produced by
`json.dumps` are modelled structurally by `Json`, and Python's negative list
slicing (`xs[-k:]`), which the history trimming depends on — including its
`-0` corner case — is modelled by `pyTailSlice`.
-/

namespace ChatBot

/-- Python dynamic value, as handled by `ToolRouter._serialize_result`
(tool_router.py lines 167-216): `None`, primitives, lists, plain dicts, and
pydantic models. A pydantic model is carried as the field list that its
`model_dump(exclude_none=True)` returns. -/
inductive PyVal where
  | pynone
  | pybool (b : Bool)
  | pyint (n : Int)
  | pystr (s : String)
  | pylist (items : List PyVal)
  | pydict (entries : List (String × PyVal))
  | pymodel (dump : List (String × PyVal))

/-- JSON document. `json.dumps` in the source renders such a document to a
string; the claims are about the document's shape (keys, counts), so we keep
the structural form. -/
inductive Json where
  | null
  | bool (b : Bool)
  | num (n : Int)
  | str (s : String)
  | arr (elems : List Json)
  | obj (fields : List (String × Json))

/-- Field lookup in a JSON object; `none` on non-objects or absent keys. -/
def Json.lookup (j : Json) (key : String) : Option Json :=
  match j with
  | .obj fields => fields.lookup key
  | _ => none

/-- Exception hierarchy of `app/utils/exceptions.py`, restricted to the
classes the embedded code paths can raise, plus Python built-ins
(`AttributeError` for a missing attribute, and a catch-all for arbitrary
adapter exceptions). Each constructor carries the `message` the class stores. -/
inductive PyExc where
  | toolExecutionError (tool_name : String) (message : String)
  | llmServiceError (message : String) (status_code : Int)
  | llmRateLimitError (message : String)
  | apiClientError (client_name : String) (message : String)
  | attributeError (message : String)
  | otherError (message : String)
deriving DecidableEq

/-- The Python class name of a raised exception (exceptions.py; built-ins). -/
def PyExc.pyClass : PyExc → String
  | .toolExecutionError _ _ => "ToolExecutionError"
  | .llmServiceError _ _ => "LLMServiceError"
  | .llmRateLimitError _ => "LLMRateLimitError"
  | .apiClientError _ _ => "APIClientError"
  | .attributeError _ => "AttributeError"
  | .otherError _ => "Exception"

/-- Result of Python `str(e)`: `ChatBotError.__init__` passes `self.message`
to `Exception.__init__`, so `str(e)` is the stored message (exceptions.py
lines 19-25); likewise for the built-ins as modelled. -/
def PyExc.pyStrOf : PyExc → String
  | .toolExecutionError _ m => m
  | .llmServiceError m _ => m
  | .llmRateLimitError m => m
  | .apiClientError _ m => m
  | .attributeError m => m
  | .otherError m => m

/-- Constructor mirroring `ToolExecutionError.__init__` (exceptions.py lines
91-99): the stored `message` is `f"Tool '{tool_name}' failed: {message}"`. -/
def mkToolExecutionError (tool_name : String) (message : String) : PyExc :=
  .toolExecutionError tool_name ("Tool \x27" ++ tool_name ++ "\x27 failed: " ++ message)

/-- Parsed tool call (llm_service.py `ToolCall`, lines 31-36): id, name and
the decoded arguments mapping. -/
structure ToolCall where
  id : String
  name : String
  arguments : List (String × PyVal)

/-- Conversation message. The source stores messages as dicts of the five
shapes created by `ConversationHistory`'s methods and `__init__`; we model
them as a tagged union. An assistant tool-call message carries its parsed
tool calls (the source stores them re-serialized, llm_service.py lines
343-357, which is information-equivalent). -/
inductive Message where
  | system (content : String)
  | user (content : String)
  | assistantText (content : String)
  | assistantToolCalls (tool_calls : List ToolCall)
  | toolResult (tool_call_id : String) (name : String) (content : String)

/-- The `role` field of the message dict, as tested by
`messages[0].get("role") == "system"` in the source. -/
def Message.role : Message → String
  | .system _ => "system"
  | .user _ => "user"
  | .assistantText _ => "assistant"
  | .assistantToolCalls _ => "assistant"
  | .toolResult _ _ _ => "tool"

/-- Python's tail slice `xs[-k:]` for an arbitrary integer `k`, exactly as
the interpreter evaluates it:
* `k > 0` — the last `k` elements (the whole list when `k ≥ len`);
* `k = 0` — since `-0 == 0`, `xs[-0:]` is `xs[0:]`, the WHOLE list;
* `k < 0` — `-k > 0`, so `xs[-k:]` is the ordinary slice `xs[(-k):]`,
  dropping the first `-k` elements.
`ConversationHistory._trim` computes `self._messages[-keep_count:]` with
`keep_count = max_length - 1`, so the `k ≤ 0` cases are reachable for
`max_length ≤ 1`. -/
def pyTailSlice (k : Int) (xs : List α) : List α :=
  if 0 < k then xs.drop (xs.length - k.toNat)
  else xs.drop (-k).toNat

/-- Per-session conversation history (llm_service.py lines 301-403):
a message list bounded (via `_trim`) by `max_length`. -/
structure ConversationHistory where
  max_length : Nat
  messages : List Message

namespace ConversationHistory

/-- Mirror of `ConversationHistory.__init__` (lines 312-320): starts with the
pinned system message when `system_prompt` is truthy (non-empty). -/
def init (max_length : Nat) (system_prompt : String) : ConversationHistory :=
  { max_length
    messages := if system_prompt = "" then [] else [.system system_prompt] }

/-- Mirror of `ConversationHistory._trim` (lines 383-402). When over the
bound: if the first message is a system message keep it and
`messages[-(max_length - 1):]` of the full list; otherwise keep
`messages[-max_length:]`. -/
def trim (h : ConversationHistory) : ConversationHistory :=
  if h.messages.length ≤ h.max_length then h
  else
    match h.messages with
    | [] => h
    | first :: _ =>
      if first.role = "system" then
        { h with messages := first :: pyTailSlice ((h.max_length : Int) - 1) h.messages }
      else
        { h with messages := pyTailSlice (h.max_length : Int) h.messages }

/-- Mirror of `add_user_message` (lines 327-330): append, then trim. -/
def add_user_message (h : ConversationHistory) (content : String) : ConversationHistory :=
  trim { h with messages := h.messages ++ [.user content] }

/-- Mirror of `add_assistant_message` (lines 332-335): append, then trim. -/
def add_assistant_message (h : ConversationHistory) (content : String) : ConversationHistory :=
  trim { h with messages := h.messages ++ [.assistantText content] }

/-- Mirror of `add_assistant_tool_calls` (lines 337-358): append, then trim. -/
def add_assistant_tool_calls (h : ConversationHistory) (tool_calls : List ToolCall) :
    ConversationHistory :=
  trim { h with messages := h.messages ++ [.assistantToolCalls tool_calls] }

/-- Mirror of `add_tool_result` (lines 360-374): append WITHOUT trimming
("Don't trim after tool results — they need to stay paired with tool_calls"). -/
def add_tool_result (h : ConversationHistory) (tool_call_id : String) (name : String)
    (result : String) : ConversationHistory :=
  { h with messages := h.messages ++ [.toolResult tool_call_id name result] }

/-- Mirror of `clear` (lines 376-381): keep only the system message, if the
first message is one. -/
def clear (h : ConversationHistory) : ConversationHistory :=
  match h.messages with
  | first :: _ =>
    if first.role = "system" then { h with messages := [first] }
    else { h with messages := [] }
  | [] => { h with messages := [] }

end ConversationHistory

/-- One mutating operation on a conversation history, for quantifying over
"any sequence of history operations". -/
inductive HistoryOp where
  | addUser (content : String)
  | addAssistant (content : String)
  | addToolCalls (tool_calls : List ToolCall)
  | addToolResult (tool_call_id : String) (name : String) (result : String)
  | clearAll

/-- Apply one operation to a history. -/
def applyOp (h : ConversationHistory) : HistoryOp → ConversationHistory
  | .addUser c => h.add_user_message c
  | .addAssistant c => h.add_assistant_message c
  | .addToolCalls tcs => h.add_assistant_tool_calls tcs
  | .addToolResult id name r => h.add_tool_result id name r
  | .clearAll => h.clear

/-- Apply a sequence of operations, oldest first. -/
def applyOps (h : ConversationHistory) (ops : List HistoryOp) : ConversationHistory :=
  ops.foldl applyOp h

/-- Whether an operation ends in a `_trim` call in the source
(`add_user_message`, `add_assistant_message`, `add_assistant_tool_calls` do;
`add_tool_result` and `clear` do not). -/
def HistoryOp.trims : HistoryOp → Bool
  | .addUser _ => true
  | .addAssistant _ => true
  | .addToolCalls _ => true
  | .addToolResult _ _ _ => false
  | .clearAll => false

/-- Tool-call/result pairing integrity of a message list (spec §3, §8): every
assistant tool-call message carrying `N` tool calls is immediately followed
by exactly `N` tool-result messages, and tool-result messages occur nowhere
else. -/
def toolPairingOkAux : Nat → List Message → Bool
  | 0, [] => true
  | 0, Message.assistantToolCalls tcs :: rest => toolPairingOkAux tcs.length rest
  | 0, Message.toolResult _ _ _ :: _ => false
  | 0, _ :: rest => toolPairingOkAux 0 rest
  | _ + 1, [] => false
  | n + 1, Message.toolResult _ _ _ :: rest => toolPairingOkAux n rest
  | _ + 1, _ :: _ => false

/-- Top-level pairing check: no pending tool results expected at the start. -/
def toolPairingOk (l : List Message) : Bool := toolPairingOkAux 0 l

/-! Helper lemmas about trimming and the history operations. -/

/-- A nonempty left operand determines the head of an append. -/
theorem head?_append_left (l l' : List α) (hl : l ≠ []) : (l ++ l').head? = l.head? := by
  cases l with
  | nil => exact absurd rfl hl
  | cons a t => simp

/-- Dropping no more than the original part of `xs ++ [a]` keeps `a` last. -/
theorem getLast?_drop_append (xs : List α) (a : α) (j : Nat) (hj : j ≤ xs.length) :
    ((xs ++ [a]).drop j).getLast? = some a := by
  rw [List.drop_append_of_le_length hj]
  simp

/-- Variant of `getLast?_drop_append` with an extra head element. -/
theorem getLast?_cons_drop_append (b : α) (xs : List α) (a : α) (j : Nat)
    (hj : j ≤ xs.length) :
    (b :: (xs ++ [a]).drop j).getLast? = some a := by
  rw [List.drop_append_of_le_length hj]
  have : b :: (xs.drop j ++ [a]) = (b :: xs.drop j) ++ [a] := rfl
  rw [this, List.getLast?_append]
  simp

namespace ConversationHistory

/-- Trimming never changes the configured bound. -/
theorem trim_max_length (h : ConversationHistory) : h.trim.max_length = h.max_length := by
  unfold trim
  split
  · rfl
  · split
    · rfl
    · split <;> rfl

/-- For a configured bound of at least 2, a trim leaves at most `max_length`
messages. (For `max_length ≤ 1` this FAILS, through Python's `-0`/negative
slice semantics; see the C5 counterexample below.) -/
theorem trim_length_le (h : ConversationHistory) (hml : 2 ≤ h.max_length) :
    h.trim.messages.length ≤ h.max_length := by
  unfold trim
  split
  · assumption
  next hgt =>
    split
    next heq => simp [heq] at hgt
    next first rest heq =>
      split
      · have hk : (0 : Int) < (h.max_length : Int) - 1 := by omega
        simp only [pyTailSlice, if_pos hk, List.length_cons, List.length_drop]
        omega
      · have hk : (0 : Int) < (h.max_length : Int) := by omega
        simp only [pyTailSlice, if_pos hk, List.length_drop]
        omega

/-- Trimming preserves a system message sitting at index 0. -/
theorem trim_head_system (h : ConversationHistory) (sp : String)
    (hh : h.messages.head? = some (Message.system sp)) :
    h.trim.messages.head? = some (Message.system sp) := by
  unfold trim
  split
  · exact hh
  · split
    next heq => rw [heq] at hh; simp at hh
    next first rest heq =>
      rw [heq] at hh
      simp only [List.head?_cons, Option.some.injEq] at hh
      subst hh
      simp [Message.role]

/-- After appending a message and trimming, the appended message is still the
last one (every trim keeps a suffix of the list, or just the head when the
pathological small-bound slice empties it — and then the head is the appended
message itself). -/
theorem trim_append_getLast (h : ConversationHistory) (m : Message) :
    (trim { h with messages := h.messages ++ [m] }).messages.getLast? = some m := by
  unfold trim
  split
  · simp
  next hgt =>
    split
    next heq => simp at heq
    next first rest heq =>
      split
      · -- system-pinning branch: keep `first` plus `messages[-(max_length-1):]`
        by_cases hk : (0 : Int) < (h.max_length : Int) - 1
        · have hj : (h.messages ++ [m]).length - ((h.max_length : Int) - 1).toNat
              ≤ h.messages.length := by
            simp only [List.length_append, List.length_cons, List.length_nil]
            omega
          simpa only [pyTailSlice, if_pos hk]
            using getLast?_cons_drop_append first h.messages m _ hj
        · by_cases hnil : h.messages = []
          · have hfst : first = m := by
              rw [hnil] at heq
              have heq' : [m] = first :: rest := by simpa using heq
              injection heq' with h1 _
              exact h1.symm
            have hm : h.max_length = 0 ∨ h.max_length = 1 := by omega
            subst hfst
            rcases hm with hm | hm <;>
              simp [pyTailSlice, hnil, hm]
          · have hj : (-((h.max_length : Int) - 1)).toNat ≤ h.messages.length := by
              have := List.length_pos.mpr hnil
              omega
            simpa only [pyTailSlice, if_neg hk]
              using getLast?_cons_drop_append first h.messages m _ hj
      · -- no system message: keep `messages[-max_length:]`
        by_cases hk : (0 : Int) < (h.max_length : Int)
        · have hj : (h.messages ++ [m]).length - ((h.max_length : Int)).toNat
              ≤ h.messages.length := by
            simp only [List.length_append, List.length_cons, List.length_nil]
            omega
          simpa only [pyTailSlice, if_pos hk]
            using getLast?_drop_append h.messages m _ hj
        · have hm : h.max_length = 0 := by omega
          simp [pyTailSlice, hm]

end ConversationHistory

/-- History operations do not change the configured bound. -/
theorem applyOp_max_length (h : ConversationHistory) (op : HistoryOp) :
    (applyOp h op).max_length = h.max_length := by
  cases op with
  | addUser c =>
    simp [applyOp, ConversationHistory.add_user_message, ConversationHistory.trim_max_length]
  | addAssistant c =>
    simp [applyOp, ConversationHistory.add_assistant_message, ConversationHistory.trim_max_length]
  | addToolCalls tcs =>
    simp [applyOp, ConversationHistory.add_assistant_tool_calls, ConversationHistory.trim_max_length]
  | addToolResult a b c => rfl
  | clearAll =>
    simp only [applyOp, ConversationHistory.clear]
    split
    · split <;> rfl
    · rfl

/-- Sequences of history operations do not change the configured bound. -/
theorem applyOps_max_length (ops : List HistoryOp) (h : ConversationHistory) :
    (applyOps h ops).max_length = h.max_length := by
  induction ops generalizing h with
  | nil => rfl
  | cons op rest ih =>
    show (applyOps (applyOp h op) rest).max_length = h.max_length
    rw [ih, applyOp_max_length]

/-- Every history operation preserves a system message pinned at index 0. -/
theorem applyOp_head_system (h : ConversationHistory) (sp : String) (op : HistoryOp)
    (hh : h.messages.head? = some (Message.system sp)) :
    (applyOp h op).messages.head? = some (Message.system sp) := by
  have hne : h.messages ≠ [] := by
    intro e; rw [e] at hh; simp at hh
  cases op with
  | addUser c =>
    exact ConversationHistory.trim_head_system _ sp
      (by rw [show ({ h with messages := h.messages ++ [Message.user c] } :
            ConversationHistory).messages = h.messages ++ [Message.user c] from rfl,
          head?_append_left _ _ hne]; exact hh)
  | addAssistant c =>
    exact ConversationHistory.trim_head_system _ sp
      (by rw [show ({ h with messages := h.messages ++ [Message.assistantText c] } :
            ConversationHistory).messages = h.messages ++ [Message.assistantText c] from rfl,
          head?_append_left _ _ hne]; exact hh)
  | addToolCalls tcs =>
    exact ConversationHistory.trim_head_system _ sp
      (by rw [show ({ h with messages := h.messages ++ [Message.assistantToolCalls tcs] } :
            ConversationHistory).messages = h.messages ++ [Message.assistantToolCalls tcs] from rfl,
          head?_append_left _ _ hne]; exact hh)
  | addToolResult a b c =>
    show (h.messages ++ [Message.toolResult a b c]).head? = _
    rw [head?_append_left _ _ hne]; exact hh
  | clearAll =>
    obtain ⟨rest, hrest⟩ : ∃ rest, h.messages = Message.system sp :: rest := by
      cases hm : h.messages with
      | nil => rw [hm] at hh; simp at hh
      | cons a t =>
        rw [hm] at hh
        simp only [List.head?_cons, Option.some.injEq] at hh
        exact ⟨t, by rw [hh]⟩
    simp [applyOp, ConversationHistory.clear, hrest, Message.role]

/-- Sequences of history operations preserve a pinned system message. -/
theorem applyOps_head_system (h : ConversationHistory) (sp : String) (ops : List HistoryOp)
    (hh : h.messages.head? = some (Message.system sp)) :
    (applyOps h ops).messages.head? = some (Message.system sp) := by
  induction ops generalizing h with
  | nil => exact hh
  | cons op rest ih =>
    exact ih (applyOp h op) (applyOp_head_system h sp op hh)

/-- A bound-4 history holding one complete tool round: system prompt, user
message, a two-call tool-call message, and its two tool results (five
messages, one over the bound, since `add_tool_result` does not trim). -/
def pairedRoundHistory : ConversationHistory :=
  ((((ConversationHistory.init 4 "S").add_user_message "u").add_assistant_tool_calls
      [{ id := "c1", name := "t", arguments := [] },
       { id := "c2", name := "t", arguments := [] }]).add_tool_result "c1" "t" "r1").add_tool_result
    "c2" "t" "r2"

/-- Claim C2 (code bug). The tool-call/tool-result pairing is NOT preserved by
trimming: starting from a well-paired history — system prompt, user message,
a tool-call message with two calls, its two results (bound 4) — appending the
round's final assistant text triggers `_trim`, which keeps the two tool-result
messages while evicting the tool-call message that owns them. This contradicts
`_trim`'s own docstring ("preserving system prompt and tool pairs",
llm_service.py line 384). -/
theorem c2_trim_breaks_tool_pairing :
    toolPairingOk pairedRoundHistory.messages = true
    ∧ toolPairingOk (pairedRoundHistory.add_assistant_message "a").messages = false
    ∧ (pairedRoundHistory.add_assistant_message "a").messages
        = [Message.system "S", Message.toolResult "c1" "t" "r1",
           Message.toolResult "c2" "t" "r2", Message.assistantText "a"] :=
  ⟨rfl, rfl, rfl⟩

/-- Claim C5 (counterexample). With the configured maximum set to 1 (a value
the configuration accepts: `MAX_CONVERSATION_HISTORY` has `ge=1`) and a pinned
system prompt, a single `add_user_message` makes `_trim` compute
`[system] + messages[-0:]`, and Python's `-0 == 0` makes that slice the WHOLE
list: the system message is duplicated and the count grows to 3 > 1, so
"after every trim the message count does not exceed the configured maximum"
is false as stated. -/
theorem c5_counterexample :
    ((ConversationHistory.init 1 "S").add_user_message "x").messages
        = [Message.system "S", Message.system "S", Message.user "x"]
    ∧ ¬ (((ConversationHistory.init 1 "S").add_user_message "x").messages.length ≤ 1) :=
  ⟨rfl, by decide⟩

/-- Claim C5 (amended): for every history created with a pinned system message
and a configured maximum of AT LEAST 2, after any number of message appends,
trims and clears the system message remains at index 0 (never evicted), and
after every trimming append the message count does not exceed the configured
maximum. -/
theorem c5_system_pinned_and_trim_bounded (sp : String) (maxLen : Nat) (ops : List HistoryOp)
    (hml : 2 ≤ maxLen) (hsp : sp ≠ "") :
    ((applyOps (ConversationHistory.init maxLen sp) ops).messages.head?
        = some (Message.system sp))
    ∧ (∀ op : HistoryOp, op.trims = true →
        (applyOp (applyOps (ConversationHistory.init maxLen sp) ops) op).messages.length
          ≤ maxLen) := by
  have hinit : (ConversationHistory.init maxLen sp).messages.head?
      = some (Message.system sp) := by
    simp [ConversationHistory.init, hsp]
  have hmax : (applyOps (ConversationHistory.init maxLen sp) ops).max_length = maxLen :=
    applyOps_max_length ops _
  refine ⟨applyOps_head_system _ sp ops hinit, ?_⟩
  intro op hop
  cases op with
  | addUser c =>
    exact le_trans
      (ConversationHistory.trim_length_le
        { applyOps (ConversationHistory.init maxLen sp) ops with
          messages := (applyOps (ConversationHistory.init maxLen sp) ops).messages
            ++ [Message.user c] }
        (show 2 <= (applyOps (ConversationHistory.init maxLen sp) ops).max_length by omega))
      (le_of_eq hmax)
  | addAssistant c =>
    exact le_trans
      (ConversationHistory.trim_length_le
        { applyOps (ConversationHistory.init maxLen sp) ops with
          messages := (applyOps (ConversationHistory.init maxLen sp) ops).messages
            ++ [Message.assistantText c] }
        (show 2 <= (applyOps (ConversationHistory.init maxLen sp) ops).max_length by omega))
      (le_of_eq hmax)
  | addToolCalls tcs =>
    exact le_trans
      (ConversationHistory.trim_length_le
        { applyOps (ConversationHistory.init maxLen sp) ops with
          messages := (applyOps (ConversationHistory.init maxLen sp) ops).messages
            ++ [Message.assistantToolCalls tcs] }
        (show 2 <= (applyOps (ConversationHistory.init maxLen sp) ops).max_length by omega))
      (le_of_eq hmax)
  | addToolResult a b c => exact absurd hop (by simp [HistoryOp.trims])
  | clearAll => exact absurd hop (by simp [HistoryOp.trims])

/-- Witness for C5 (amended) at a concrete input: bound 2, prompt "S", one
user append; the system message is pinned and an assistant append stays
within the bound. -/
theorem c5_witness :
    ((applyOps (ConversationHistory.init 2 "S") [HistoryOp.addUser "x"]).messages.head?
        = some (Message.system "S"))
    ∧ (applyOp (applyOps (ConversationHistory.init 2 "S") [HistoryOp.addUser "x"])
        (HistoryOp.addAssistant "y")).messages.length ≤ 2 :=
  ⟨(c5_system_pinned_and_trim_bounded "S" 2 [HistoryOp.addUser "x"] (by omega) (by decide)).1,
   (c5_system_pinned_and_trim_bounded "S" 2 [HistoryOp.addUser "x"] (by omega) (by decide)).2
      (HistoryOp.addAssistant "y") rfl⟩

/-- Claim C9 (implicit): `add_tool_result` appends its message without ever
trimming, so immediately after a round of tool results the count can exceed
the configured maximum (concretely: bound 3, four messages after one tool
result); the cap is re-established by the next trimming append
(`add_user_message`, `add_assistant_message` or `add_assistant_tool_calls`),
here for bounds of at least 2, where trimming enforces its cap (see C5). -/
theorem c9_add_tool_result_defers_trim :
    (∀ (h : ConversationHistory) (id name r : String),
        (h.add_tool_result id name r).messages = h.messages ++ [Message.toolResult id name r])
    ∧ (((((ConversationHistory.init 3 "S").add_user_message "u").add_assistant_tool_calls
          [{ id := "c1", name := "t", arguments := [] }]).add_tool_result "c1" "t" "r").messages.length = 4
        ∧ ((((ConversationHistory.init 3 "S").add_user_message "u").add_assistant_tool_calls
          [{ id := "c1", name := "t", arguments := [] }]).add_tool_result "c1" "t" "r").max_length = 3)
    ∧ (∀ (h : ConversationHistory) (c : String) (tcs : List ToolCall), 2 ≤ h.max_length →
        (h.add_user_message c).messages.length ≤ h.max_length
        ∧ (h.add_assistant_message c).messages.length ≤ h.max_length
        ∧ (h.add_assistant_tool_calls tcs).messages.length ≤ h.max_length) := by
  refine ⟨fun h id name r => rfl, ⟨rfl, rfl⟩, fun h c tcs hml => ?_⟩
  exact ⟨ConversationHistory.trim_length_le _ hml, ConversationHistory.trim_length_le _ hml,
    ConversationHistory.trim_length_le _ hml⟩

/-- Witness for C9 at a concrete input: bound 2 with a pinned prompt; a user
append after the hypothesis `2 ≤ max_length` holds keeps the count within the
bound. -/
theorem c9_witness :
    2 ≤ (ConversationHistory.init 2 "S").max_length
    ∧ ((ConversationHistory.init 2 "S").add_user_message "x").messages.length
        ≤ (ConversationHistory.init 2 "S").max_length :=
  ⟨by decide,
   (c9_add_tool_result_defers_trim.2.2 (ConversationHistory.init 2 "S") "x" [] (by decide)).1⟩

/-! The LLM gateway response type and the orchestrator's conversation loop. -/

/-- Structured LLM response (llm_service.py lines 39-55): either text content
or parsed tool calls. -/
structure LLMResponse where
  content : Option String
  tool_calls : List ToolCall
  finish_reason : String

/-- Mirror of the `has_tool_calls` property: `bool(self.tool_calls)`. -/
def LLMResponse.has_tool_calls (r : LLMResponse) : Bool := !r.tool_calls.isEmpty

/-- Python's `content or fallback` on an optional string: both `None` and the
empty string are falsy and select the fallback. -/
def pyStrOr (c : Option String) (fallback : String) : String :=
  match c with
  | some s => if s = "" then fallback else s
  | none => fallback

/-- Mirror of `ChatOrchestrator._execute_tool_call` (chat_orchestrator.py
lines 300-326): run the router; a `ToolExecutionError` is caught and turned
into an inline JSON error string carrying `e.message`; any other exception is
caught and turned into a generic inline JSON error string. The function is
total — no exception ever escapes the per-call boundary. -/
def executeToolCall (router_result : Except PyExc String) (tool_name : String) : String :=
  match router_result with
  | .ok s => s
  | .error (.toolExecutionError _ msg) =>
      "\x7b\"error\": \"Tool \x27" ++ tool_name ++ "\x27 failed: " ++ msg ++ "\"\x7d"
  | .error _ =>
      "\x7b\"error\": \"An unexpected error occurred while executing \x27"
        ++ tool_name ++ "\x27\"\x7d"

/-- Maximum rounds of tool calling before forcing a text response
(chat_orchestrator.py line 31). -/
def MAX_TOOL_ITERATIONS : Nat := 5

/-- One `EXECUTE_TOOLS` round (chat_orchestrator.py lines 252-265): append the
assistant tool-call message, then for each tool call in order execute it and
append its tool-result message. -/
def runRound (toolExec : String → List (String × PyVal) → Except PyExc String)
    (h : ConversationHistory) (tool_calls : List ToolCall) : ConversationHistory :=
  tool_calls.foldl
    (fun acc tc =>
      acc.add_tool_result tc.id tc.name (executeToolCall (toolExec tc.name tc.arguments) tc.name))
    (h.add_assistant_tool_calls tool_calls)

/-- Outcome of `_run_conversation_loop`: the returned text or the propagated
LLM exception, the history's final state, and how many LLM calls were made. -/
structure LoopOut where
  result : Except PyExc String
  history : ConversationHistory
  llm_calls : Nat

/-- Mirror of `ChatOrchestrator._run_conversation_loop` (chat_orchestrator.py
lines 208-298), with the LLM gateway and the tool router as oracles. The
`Bool` argument of `llm` tells whether the tool schema was passed
(`tools=self._tools`) or not (`tools=None`, the forced-text final call). The
`Nat` argument is the remaining round budget: at `0` the for-loop is
exhausted and the final no-tools call is issued. LLM-gateway exceptions
propagate; tool execution cannot abort the loop (`executeToolCall` is total). -/
def runConversationLoop (llm : List Message → Bool → Except PyExc LLMResponse)
    (toolExec : String → List (String × PyVal) → Except PyExc String) :
    ConversationHistory → Nat → LoopOut
  | h, 0 =>
    match llm h.messages false with
    | .error e => ⟨.error e, h, 1⟩
    | .ok resp =>
      ⟨.ok (pyStrOr resp.content
          "I gathered some data but couldn\x27t formulate a response. Please try again."),
        h, 1⟩
  | h, fuel + 1 =>
    match llm h.messages true with
    | .error e => ⟨.error e, h, 1⟩
    | .ok resp =>
      if resp.tool_calls.isEmpty then
        ⟨.ok (pyStrOr resp.content "I couldn\x27t generate a response. Please try again."), h, 1⟩
      else
        let out := runConversationLoop llm toolExec (runRound toolExec h resp.tool_calls) fuel
        ⟨out.result, out.history, out.llm_calls + 1⟩

/-! The context-augmentation phase of `process_message`, and the missing
`inject_context` method. -/

/-- A retrieved context record (`context_service.py`): document text,
metadata, and similarity distance. Distances are modelled as exact rationals. -/
structure ContextRecord where
  document : String
  metadata : List (String × String)
  distance : ℚ

/-- Round-half-to-even (banker's rounding), the rounding Python's `round` and
format specifiers apply. -/
def roundHalfEven (q : ℚ) : ℤ :=
  if q - ⌊q⌋ < 1 / 2 then ⌊q⌋
  else if 1 / 2 < q - ⌊q⌋ then ⌊q⌋ + 1
  else if ⌊q⌋ % 2 = 0 then ⌊q⌋ else ⌊q⌋ + 1

/-- Python `round(x, 4)` on exact rationals. -/
def pyRound4 (q : ℚ) : ℚ := (roundHalfEven (q * 10000) : ℚ) / 10000

/-- Python format `f"{x:.0%}"`: the value times 100, rounded to zero decimals,
followed by a percent sign. -/
def pctFmt (q : ℚ) : String := toString (roundHalfEven (q * 100)) ++ "%"

/-- Mirror of `ContextService.format_context_for_prompt` (context_service.py
lines 187-208): a header, one block per record ("--- Past Interaction i
(relevance: p%) ---", the document, a blank line), and a footer, joined with
newlines; empty string for no records. -/
def format_context_for_prompt (contexts : List ContextRecord) : String :=
  if contexts.isEmpty then ""
  else
    String.intercalate "\n"
      (["Here is relevant context from our previous conversations:\n"]
        ++ contexts.enum.flatMap (fun p =>
            ["--- Past Interaction " ++ toString (p.1 + 1) ++ " (relevance: "
                ++ pctFmt (1 - p.2.distance) ++ ") ---",
             p.2.document, ""])
        ++ ["Use this context to provide more informed and personalized responses."])

/-- `ChatOrchestrator.process_message` calls
`history.inject_context(context_text)` (chat_orchestrator.py line 100), but
`ConversationHistory` (llm_service.py lines 301-403) defines no method of
that name — nor does any other module in the repository — so in Python the
call raises `AttributeError`. The embedding models the call faithfully as
that failure. -/
def ConversationHistory.injectContextCall (_h : ConversationHistory)
    (_context_text : String) : Except PyExc ConversationHistory :=
  .error (.attributeError "ConversationHistory object has no attribute inject_context")

/-- Context-augmentation phase of `process_message` (chat_orchestrator.py
lines 93-102): retrieve past interactions; if any were found, format them and
attempt the injection; any exception in the `try` block — including the
`AttributeError` from the missing `inject_context` — is caught, logged as
`context_retrieval_skipped`, and leaves the history unchanged. -/
def contextPhase (retrieval : Except PyExc (List ContextRecord))
    (h : ConversationHistory) : ConversationHistory :=
  let attempt : Except PyExc ConversationHistory :=
    match retrieval with
    | .error e => .error e
    | .ok contexts =>
      if contexts.isEmpty then .ok h
      else h.injectContextCall (format_context_for_prompt contexts)
  match attempt with
  | .ok h2 => h2
  | .error _ => h

/-- Mirror of `ChatOrchestrator.process_message` (chat_orchestrator.py lines
71-159) acting on one session's history, with the LLM gateway, the router and
the context retrieval as oracles. The conversation logger and the context
store write are external sinks that do not affect the returned text or the
history (store failures are swallowed, lines 129-142). The pair's second
component is the history object's final state: the source mutates the
session's history in place and the `except` clause (lines 152-159) logs and
re-raises, so on failure the mutated history stays in the session map and is
replayed on the session's next turn. -/
def process_message (llm : List Message → Bool → Except PyExc LLMResponse)
    (toolExec : String → List (String × PyVal) → Except PyExc String)
    (retrieval : Except PyExc (List ContextRecord))
    (h : ConversationHistory) (user_message : String) :
    Except PyExc String × ConversationHistory :=
  let h1 := (contextPhase retrieval h).add_user_message user_message
  let out := runConversationLoop llm toolExec h1 MAX_TOOL_ITERATIONS
  match out.result with
  | .error e => (.error e, out.history)
  | .ok response_text => (.ok response_text, out.history.add_assistant_message response_text)

/-- The context phase never changes the history: retrieval errors and empty
results are skipped, and a non-empty result dies on the missing
`inject_context` attribute, swallowed by the `except` clause. -/
theorem contextPhase_unchanged (retrieval : Except PyExc (List ContextRecord))
    (h : ConversationHistory) : contextPhase retrieval h = h := by
  cases retrieval with
  | error e => rfl
  | ok contexts =>
    by_cases hc : contexts.isEmpty <;>
      simp [contextPhase, ConversationHistory.injectContextCall, hc]

/-- Each tool round appends the tool-call message and then exactly one
tool-result message per call, in order, whatever the router outcomes are. -/
theorem runRound_messages (toolExec : String → List (String × PyVal) → Except PyExc String)
    (tcs : List ToolCall) (acc : ConversationHistory) :
    (tcs.foldl
        (fun acc tc =>
          acc.add_tool_result tc.id tc.name
            (executeToolCall (toolExec tc.name tc.arguments) tc.name)) acc).messages
      = acc.messages
        ++ tcs.map (fun tc =>
            Message.toolResult tc.id tc.name
              (executeToolCall (toolExec tc.name tc.arguments) tc.name)) := by
  induction tcs generalizing acc with
  | nil => simp
  | cons tc rest ih =>
    rw [List.foldl_cons, ih]
    simp [ConversationHistory.add_tool_result, List.append_assoc]

/-- The loop's result is an exception only when some LLM call raised it. -/
theorem loop_error_from_llm (llm : List Message → Bool → Except PyExc LLMResponse)
    (toolExec : String → List (String × PyVal) → Except PyExc String) :
    ∀ (fuel : Nat) (h : ConversationHistory) (e : PyExc),
      (runConversationLoop llm toolExec h fuel).result = .error e →
      ∃ msgs b, llm msgs b = .error e := by
  intro fuel
  induction fuel with
  | zero =>
    intro h e hres
    simp only [runConversationLoop] at hres
    cases hcall : llm h.messages false with
    | error e2 =>
      rw [hcall] at hres
      simp only [Except.error.injEq] at hres
      exact ⟨h.messages, false, by rw [hcall, hres]⟩
    | ok resp => rw [hcall] at hres; simp at hres
  | succ fuel ih =>
    intro h e hres
    simp only [runConversationLoop] at hres
    cases hcall : llm h.messages true with
    | error e2 =>
      rw [hcall] at hres
      simp only [Except.error.injEq] at hres
      exact ⟨h.messages, true, by rw [hcall, hres]⟩
    | ok resp =>
      rw [hcall] at hres
      by_cases hne : resp.tool_calls.isEmpty <;> simp only [hne, if_true, if_false] at hres
      · simp at hres
      · exact ih (runRound toolExec h resp.tool_calls) e hres

/-- Under an LLM that emits tool calls on every with-tools call, the loop
consumes the whole round budget, issues the final no-tools call, and its
outcome is exactly that final call's (text content or fallback on success,
propagated exception on failure). -/
theorem loop_exhausts_budget (llm : List Message → Bool → Except PyExc LLMResponse)
    (toolExec : String → List (String × PyVal) → Except PyExc String)
    (hT : ∀ msgs, match llm msgs true with | .ok r => r.tool_calls ≠ [] | .error _ => False) :
    ∀ (fuel : Nat) (h : ConversationHistory),
      (runConversationLoop llm toolExec h fuel).llm_calls = fuel + 1
      ∧ (runConversationLoop llm toolExec h fuel).result
          = (match llm (runConversationLoop llm toolExec h fuel).history.messages false with
             | .ok r => .ok (pyStrOr r.content
                 "I gathered some data but couldn\x27t formulate a response. Please try again.")
             | .error e => .error e) := by
  intro fuel
  induction fuel with
  | zero =>
    intro h
    simp only [runConversationLoop]
    cases hcall : llm h.messages false <;> simp [hcall]
  | succ fuel ih =>
    intro h
    have htc := hT h.messages
    cases hcall : llm h.messages true with
    | error e => rw [hcall] at htc; exact absurd htc (by simp)
    | ok resp =>
      rw [hcall] at htc
      have hne : resp.tool_calls.isEmpty = false := by
        simpa [List.isEmpty_iff] using htc
      simp only [runConversationLoop]
      rw [hcall]
      simp only [hne, Bool.false_eq_true, if_false]
      exact ⟨by rw [(ih (runRound toolExec h resp.tool_calls)).1],
        (ih (runRound toolExec h resp.tool_calls)).2⟩

/-- Claim C1 (code bug): the retrieved context block is NEVER injected.
`process_message` computes the block and calls `history.inject_context(...)`,
a method `ConversationHistory` does not define; the resulting
`AttributeError` is swallowed by the surrounding `except` clause (logged as
`context_retrieval_skipped`), so for every retrieval outcome — including a
non-empty record list — the history entering the user-message append is the
unmodified one: no block is ever placed ahead of the user message. -/
theorem c1_context_block_never_injected :
    (∀ (retrieval : Except PyExc (List ContextRecord)) (h : ConversationHistory) (m : String),
        (contextPhase retrieval h).add_user_message m = h.add_user_message m)
    ∧ (∀ (rec : ContextRecord) (h : ConversationHistory),
        contextPhase (.ok [rec]) h = h) :=
  ⟨fun retrieval h m => by rw [contextPhase_unchanged],
   fun rec h => contextPhase_unchanged (.ok [rec]) h⟩

/-- Claim C3: (1) each tool round appends the tool-call message followed by
exactly one tool-result message per call, in the order received, no matter
how the router behaved on each call; (2) a failed call's result is an inline
JSON-shaped error string (the per-call boundary catches every exception);
(3) the loop's outcome is an exception only when an LLM-gateway call raised
it — tool failures never abort the turn. -/
theorem c3_tool_failures_never_abort_turn :
    (∀ (toolExec : String → List (String × PyVal) → Except PyExc String)
        (h : ConversationHistory) (tcs : List ToolCall),
        (runRound toolExec h tcs).messages
          = (h.add_assistant_tool_calls tcs).messages
            ++ tcs.map (fun tc =>
                Message.toolResult tc.id tc.name
                  (executeToolCall (toolExec tc.name tc.arguments) tc.name)))
    ∧ (∀ (e : PyExc) (tool_name : String),
        ∃ rest, executeToolCall (.error e) tool_name = "\x7b\"error\": " ++ rest)
    ∧ (∀ (llm : List Message → Bool → Except PyExc LLMResponse)
        (toolExec : String → List (String × PyVal) → Except PyExc String)
        (h : ConversationHistory) (fuel : Nat) (e : PyExc),
        (runConversationLoop llm toolExec h fuel).result = .error e →
        ∃ msgs b, llm msgs b = .error e) := by
  refine ⟨fun toolExec h tcs => runRound_messages toolExec tcs _, ?_, ?_⟩
  · intro e tool_name
    cases e with
    | toolExecutionError tn msg =>
      exact ⟨"\"Tool \x27" ++ tool_name ++ "\x27 failed: " ++ msg ++ "\"\x7d", by
        simp only [← String.append_assoc]; rfl⟩
    | llmServiceError m c =>
      exact ⟨"\"An unexpected error occurred while executing \x27"
          ++ tool_name ++ "\x27\"\x7d", by simp only [← String.append_assoc]; rfl⟩
    | llmRateLimitError m =>
      exact ⟨"\"An unexpected error occurred while executing \x27"
          ++ tool_name ++ "\x27\"\x7d", by simp only [← String.append_assoc]; rfl⟩
    | apiClientError cn m =>
      exact ⟨"\"An unexpected error occurred while executing \x27"
          ++ tool_name ++ "\x27\"\x7d", by simp only [← String.append_assoc]; rfl⟩
    | attributeError m =>
      exact ⟨"\"An unexpected error occurred while executing \x27"
          ++ tool_name ++ "\x27\"\x7d", by simp only [← String.append_assoc]; rfl⟩
    | otherError m =>
      exact ⟨"\"An unexpected error occurred while executing \x27"
          ++ tool_name ++ "\x27\"\x7d", by simp only [← String.append_assoc]; rfl⟩
  · exact fun llm toolExec h fuel e hres => loop_error_from_llm llm toolExec fuel h e hres

/-- Witness for C3 at a concrete input: a gateway that always fails makes the
loop return that very exception, and it indeed came from an LLM call. -/
theorem c3_witness :
    ((runConversationLoop (fun _ _ => .error (PyExc.llmServiceError "boom" 502))
        (fun _ _ => .ok "\x7b\x7d") (ConversationHistory.init 20 "S")
        MAX_TOOL_ITERATIONS).result = .error (PyExc.llmServiceError "boom" 502))
    ∧ ∃ msgs b,
        (fun (_ : List Message) (_ : Bool) =>
          (.error (PyExc.llmServiceError "boom" 502) : Except PyExc LLMResponse)) msgs b
          = .error (PyExc.llmServiceError "boom" 502) :=
  ⟨rfl,
   c3_tool_failures_never_abort_turn.2.2 _ (fun _ _ => .ok "\x7b\x7d")
     (ConversationHistory.init 20 "S") MAX_TOOL_ITERATIONS _ rfl⟩

/-- Claim C4: when the LLM emits tool calls on every with-tools call, the loop
makes exactly `MAX_TOOL_ITERATIONS + 1` LLM calls — the budgeted rounds plus
one final no-tools call — and returns the final call's text content, or the
fixed fallback string when that content is null or empty. -/
theorem c4_round_budget_plus_one (llm : List Message → Bool → Except PyExc LLMResponse)
    (toolExec : String → List (String × PyVal) → Except PyExc String)
    (h : ConversationHistory)
    (hT : ∀ msgs, match llm msgs true with | .ok r => r.tool_calls ≠ [] | .error _ => False) :
    (runConversationLoop llm toolExec h MAX_TOOL_ITERATIONS).llm_calls
      = MAX_TOOL_ITERATIONS + 1
    ∧ (∀ r, llm (runConversationLoop llm toolExec h
          MAX_TOOL_ITERATIONS).history.messages false = .ok r →
        (runConversationLoop llm toolExec h MAX_TOOL_ITERATIONS).result
          = .ok (pyStrOr r.content
              "I gathered some data but couldn\x27t formulate a response. Please try again.")) := by
  refine ⟨(loop_exhausts_budget llm toolExec hT MAX_TOOL_ITERATIONS h).1, fun r hok => ?_⟩
  have h2 := (loop_exhausts_budget llm toolExec hT MAX_TOOL_ITERATIONS h).2
  rw [hok] at h2
  exact h2

/-- An LLM oracle that returns one tool call whenever the tool schema is
passed and text when it is not. -/
def llmAlwaysTools : List Message → Bool → Except PyExc LLMResponse :=
  fun _ tools_provided =>
    if tools_provided then
      .ok { content := none,
            tool_calls := [{ id := "call_1", name := "search_anime",
                             arguments := [("query", PyVal.pystr "Naruto")] }],
            finish_reason := "tool_calls" }
    else .ok { content := some "final answer", tool_calls := [], finish_reason := "stop" }

/-- Witness for C4 at a concrete input: with `llmAlwaysTools` the loop makes
6 = 5 + 1 LLM calls and returns the final call's text. -/
theorem c4_witness :
    (runConversationLoop llmAlwaysTools (fun _ _ => .ok "\x7b\x7d")
        (ConversationHistory.init 20 "S") MAX_TOOL_ITERATIONS).llm_calls
      = MAX_TOOL_ITERATIONS + 1
    ∧ (runConversationLoop llmAlwaysTools (fun _ _ => .ok "\x7b\x7d")
        (ConversationHistory.init 20 "S") MAX_TOOL_ITERATIONS).result = .ok "final answer" := by
  have h := c4_round_budget_plus_one llmAlwaysTools (fun _ _ => .ok "\x7b\x7d")
    (ConversationHistory.init 20 "S") (fun msgs => by simp [llmAlwaysTools])
  refine ⟨h.1, ?_⟩
  have h2 := h.2 { content := some "final answer", tool_calls := [], finish_reason := "stop" } rfl
  exact h2

/-- Claim C10 (implicit): `process_message` is not atomic on failure. When the
LLM gateway raises (here: on the turn's first call), the exception propagates
to the caller while the session's history keeps the already-appended user
message as its last entry — no rollback happens, and since the source mutates
the session's history object in place, this prefix is replayed on the
session's next message. -/
theorem c10_no_rollback_on_llm_failure
    (llm : List Message → Bool → Except PyExc LLMResponse)
    (toolExec : String → List (String × PyVal) → Except PyExc String)
    (retrieval : Except PyExc (List ContextRecord))
    (h : ConversationHistory) (m : String) (e : PyExc)
    (hFail : llm ((contextPhase retrieval h).add_user_message m).messages true = .error e) :
    process_message llm toolExec retrieval h m = (.error e, h.add_user_message m)
    ∧ (h.add_user_message m).messages.getLast? = some (Message.user m) := by
  rw [contextPhase_unchanged] at hFail
  constructor
  · show (match (runConversationLoop llm toolExec
        ((contextPhase retrieval h).add_user_message m) MAX_TOOL_ITERATIONS).result with
      | .error e => ((.error e : Except PyExc String),
          (runConversationLoop llm toolExec ((contextPhase retrieval h).add_user_message m)
            MAX_TOOL_ITERATIONS).history)
      | .ok t => (.ok t,
          (runConversationLoop llm toolExec ((contextPhase retrieval h).add_user_message m)
            MAX_TOOL_ITERATIONS).history.add_assistant_message t)) = _
    rw [contextPhase_unchanged]
    rw [show MAX_TOOL_ITERATIONS = 4 + 1 from rfl]
    simp only [runConversationLoop]
    rw [hFail]
  · exact ConversationHistory.trim_append_getLast h (Message.user m)

/-- Witness for C10 at a concrete input: a gateway that is down makes
`process_message` return its exception together with the history that still
holds the user message. -/
theorem c10_witness :
    process_message (fun _ _ => .error (PyExc.llmServiceError "down" 502))
        (fun _ _ => .ok "\x7b\x7d") (.ok []) (ConversationHistory.init 3 "S") "hi"
      = (.error (PyExc.llmServiceError "down" 502),
          (ConversationHistory.init 3 "S").add_user_message "hi")
    ∧ ((ConversationHistory.init 3 "S").add_user_message "hi").messages.getLast?
        = some (Message.user "hi") :=
  c10_no_rollback_on_llm_failure _ _ _ _ _ _ rfl

/-! The tool router: static tool map, argument mapping, execution, and result
serialization. -/

/-- Conversion applied by `json.dumps` to plain Python values (dicts, lists,
primitives). Pydantic models do not occur inside already-dumped values in the
source's data; for totality a stray model converts to its field object. -/
def PyVal.toJson : PyVal → Json
  | .pynone => .null
  | .pybool b => .bool b
  | .pyint n => .num n
  | .pystr s => .str s
  | .pylist items => .arr (items.attach.map (fun x => PyVal.toJson x.1))
  | .pydict entries => .obj (entries.attach.map (fun p => (p.1.1, PyVal.toJson p.1.2)))
  | .pymodel dump => .obj (dump.attach.map (fun p => (p.1.1, PyVal.toJson p.1.2)))
decreasing_by
  · have h1 := List.sizeOf_lt_of_mem x.2
    have h2 : sizeOf (PyVal.pylist items) = 1 + sizeOf items := by simp
    omega
  · obtain ⟨⟨k, v⟩, hmem⟩ := p
    have h1 := List.sizeOf_lt_of_mem hmem
    have h2 : sizeOf (k, v) = 1 + sizeOf k + sizeOf v := rfl
    have h3 : sizeOf (PyVal.pydict entries) = 1 + sizeOf entries := by simp
    show sizeOf v < sizeOf (PyVal.pydict entries)
    omega
  · obtain ⟨⟨k, v⟩, hmem⟩ := p
    have h1 := List.sizeOf_lt_of_mem hmem
    have h2 : sizeOf (k, v) = 1 + sizeOf k + sizeOf v := rfl
    have h3 : sizeOf (PyVal.pymodel dump) = 1 + sizeOf dump := by simp
    show sizeOf v < sizeOf (PyVal.pymodel dump)
    omega

/-- Python `repr` of a value (used inside `str` of containers). A pydantic
model prints as its space-separated field assignments. -/
def PyVal.pyRepr : PyVal → String
  | .pynone => "None"
  | .pybool b => if b then "True" else "False"
  | .pyint n => toString n
  | .pystr s => "\x27" ++ s ++ "\x27"
  | .pylist items => "[" ++ String.intercalate ", " (items.attach.map (fun x => PyVal.pyRepr x.1)) ++ "]"
  | .pydict entries =>
      "\x7b" ++ String.intercalate ", "
        (entries.attach.map (fun p => "\x27" ++ p.1.1 ++ "\x27: " ++ PyVal.pyRepr p.1.2)) ++ "\x7d"
  | .pymodel dump =>
      String.intercalate " " (dump.attach.map (fun p => p.1.1 ++ "=" ++ PyVal.pyRepr p.1.2))
decreasing_by
  · have h1 := List.sizeOf_lt_of_mem x.2
    have h2 : sizeOf (PyVal.pylist items) = 1 + sizeOf items := by simp
    omega
  · obtain ⟨⟨k, v⟩, hmem⟩ := p
    have h1 := List.sizeOf_lt_of_mem hmem
    have h2 : sizeOf (k, v) = 1 + sizeOf k + sizeOf v := rfl
    have h3 : sizeOf (PyVal.pydict entries) = 1 + sizeOf entries := by simp
    show sizeOf v < sizeOf (PyVal.pydict entries)
    omega
  · obtain ⟨⟨k, v⟩, hmem⟩ := p
    have h1 := List.sizeOf_lt_of_mem hmem
    have h2 : sizeOf (k, v) = 1 + sizeOf k + sizeOf v := rfl
    have h3 : sizeOf (PyVal.pymodel dump) = 1 + sizeOf dump := by simp
    show sizeOf v < sizeOf (PyVal.pymodel dump)
    omega

/-- Python `str(x)`: like `repr`, except strings print bare. -/
def PyVal.pyStr : PyVal → String
  | .pystr s => s
  | v => v.pyRepr

/-- Element serialization inside a list result (tool_router.py lines
186-193): pydantic models via `model_dump(exclude_none=True)`, dicts as-is,
anything else via `str(item)`. -/
def serializeListItem : PyVal → Json
  | .pymodel dump => .obj (dump.map (fun p => (p.1, PyVal.toJson p.2)))
  | .pydict entries => .obj (entries.map (fun p => (p.1, PyVal.toJson p.2)))
  | v => .str v.pyStr

/-- Value serialization inside a dict result (lines 200-213): nested pydantic
models are dumped, lists dump their model elements, everything else passes
through to `json.dumps`. -/
def serializeDictValue : PyVal → Json
  | .pymodel dump => .obj (dump.map (fun p => (p.1, PyVal.toJson p.2)))
  | .pylist items => .arr (items.map (fun it =>
      match it with
      | .pymodel dump => Json.obj (dump.map (fun p => (p.1, PyVal.toJson p.2)))
      | v => v.toJson))
  | v => v.toJson

/-- Mirror of `ToolRouter._serialize_result` (tool_router.py lines 167-216),
as the JSON object that `json.dumps` renders to the returned string: `None` →
a "no results" marker object (NO count field); empty list → marker plus
`count: 0`; non-empty list → `results` array plus `count`; pydantic model →
its dump; dict → with nested models dumped; anything else → `str(result)`
under `result`. -/
def serialize_result : PyVal → Json
  | .pynone => .obj [("result", .str "No results found.")]
  | .pylist items =>
      if items.isEmpty then
        .obj [("result", .str "No results found."), ("count", .num 0)]
      else
        .obj [("results", .arr (items.map serializeListItem)),
              ("count", .num (items.length : Int))]
  | .pymodel dump => .obj (dump.map (fun p => (p.1, PyVal.toJson p.2)))
  | .pydict entries => .obj (entries.map (fun p => (p.1, serializeDictValue p.2)))
  | v => .obj [("result", .str v.pyStr)]

/-- The static tool map of `ToolRouter.__init__` (tool_router.py lines
57-76): function name → (client key, method name, LLM-argument →
client-parameter renaming), in source order. -/
def toolMap : List (String × String × String × List (String × String)) :=
  [("search_anime", "jikan", "search_anime", []),
   ("get_anime_details", "jikan", "get_anime_by_id", [("anime_id", "anime_id")]),
   ("search_manga", "jikan", "search_manga", []),
   ("get_manga_details", "jikan", "get_manga_by_id", [("manga_id", "manga_id")]),
   ("get_top_anime", "jikan", "get_top_anime", [("filter", "filter_type")]),
   ("get_seasonal_anime", "jikan", "get_season_anime", []),
   ("search_tv_shows", "tvmaze", "search_shows", []),
   ("get_tv_show_details", "tvmaze", "get_show_with_details", []),
   ("get_tv_episode", "tvmaze", "get_episode_by_number", []),
   ("get_tv_schedule", "tvmaze", "get_schedule", []),
   ("search_books", "openlibrary", "search_books", []),
   ("get_book_by_isbn", "openlibrary", "get_edition_by_isbn", []),
   ("search_authors", "openlibrary", "search_authors", [])]

/-- Mirror of `available_tools` (lines 78-81): registered names in order. -/
def available_tools : List String := toolMap.map (fun e => e.1)

/-- Python `str` of a list of strings, as interpolated into the unknown-tool
message: `['a', 'b', ...]`. -/
def pyReprStrList (xs : List String) : String :=
  "[" ++ String.intercalate ", " (xs.map (fun s => "\x27" ++ s ++ "\x27")) ++ "]"

/-- Mirror of `ToolRouter._map_arguments` (lines 145-165): rename each LLM
argument through the mapping (identity on unmapped names); pass-through when
the mapping is empty. -/
def map_arguments (arguments : List (String × PyVal)) (mapping : List (String × String)) :
    List (String × PyVal) :=
  if mapping.isEmpty then arguments
  else arguments.map (fun kv => ((mapping.lookup kv.1).getD kv.1, kv.2))

/-- Mirror of `ToolRouter.execute` (tool_router.py lines 83-141), with the
three API clients abstracted as one dispatch oracle from (client key, method
name, mapped arguments) to a result value or a raised exception. Unregistered
names raise `ToolExecutionError` with an "Unknown tool" message BEFORE any
dispatch; a raised `ToolExecutionError` is re-raised as-is; any other adapter
exception is wrapped via `ToolExecutionError(tool_name, str(e))`. Besides the
outcome (the serialized result object, or the raised exception), the
embedding returns the list of adapter invocations performed, so that "never
invokes any adapter" is statable. -/
def ToolRouter.execute
    (adapter : String → String → List (String × PyVal) → Except PyExc PyVal)
    (tool_name : String) (arguments : List (String × PyVal)) :
    Except PyExc Json × List (String × String × List (String × PyVal)) :=
  match toolMap.lookup tool_name with
  | none =>
    (.error (mkToolExecutionError tool_name
        ("Unknown tool: \x27" ++ tool_name ++ "\x27. Available: "
          ++ pyReprStrList available_tools)), [])
  | some (client_key, method_name, arg_mapping) =>
    let mapped_args := map_arguments arguments arg_mapping
    match adapter client_key method_name mapped_args with
    | .ok result =>
      (.ok (serialize_result result), [(client_key, method_name, mapped_args)])
    | .error (.toolExecutionError tn m) =>
      (.error (.toolExecutionError tn m), [(client_key, method_name, mapped_args)])
    | .error e =>
      (.error (mkToolExecutionError tool_name e.pyStrOf),
        [(client_key, method_name, mapped_args)])

/-- Claim C6 (counterexample): serializing a `None` result yields the
"no results" marker object with NO count field at all — not "a marker plus a
zero count" as claimed (only the empty-list result carries `count: 0`). -/
theorem c6_counterexample :
    (serialize_result PyVal.pynone).lookup "count" = none
    ∧ serialize_result PyVal.pynone = .obj [("result", .str "No results found.")] :=
  ⟨rfl, rfl⟩

/-- Claim C6 (amended): a null result yields the human-readable "no results"
marker WITHOUT a count field; an empty-list result yields the marker plus a
zero count; a non-empty list result yields a `results` array plus a `count`
equal to the list's length. -/
theorem c6_serialization_shapes :
    serialize_result PyVal.pynone = .obj [("result", .str "No results found.")]
    ∧ serialize_result (PyVal.pylist [])
        = .obj [("result", .str "No results found."), ("count", .num 0)]
    ∧ (∀ items : List PyVal, items ≠ [] →
        serialize_result (PyVal.pylist items)
          = .obj [("results", .arr (items.map serializeListItem)),
                  ("count", .num (items.length : Int))]) :=
  ⟨rfl, rfl, fun items hne => by
    cases items with
    | nil => exact absurd rfl hne
    | cons a l => rfl⟩

/-- Witness for C6 (amended) at a concrete input: a one-element list result. -/
theorem c6_witness :
    ([PyVal.pystr "x"] ≠ ([] : List PyVal))
    ∧ serialize_result (PyVal.pylist [PyVal.pystr "x"])
        = Json.obj [("results", Json.arr [Json.str "x"]), ("count", Json.num 1)] :=
  ⟨by simp, c6_serialization_shapes.2.2 [PyVal.pystr "x"] (by simp)⟩

/-- An adapter oracle whose every method returns `None`. -/
def adapterAlwaysNone : String → String → List (String × PyVal) → Except PyExc PyVal :=
  fun _ _ _ => .ok .pynone

/-- An adapter oracle whose every method raises a plain `Exception`. -/
def adapterAlwaysRaises : String → String → List (String × PyVal) → Except PyExc PyVal :=
  fun _ _ _ => .error (.otherError "Connection failed")

/-- Claim C7 (counterexample): there is no distinct `UnknownTool` error. The
failure for an unregistered name is raised as `ToolExecutionError` — exactly
the class that wraps adapter execution failures (the only tool-error class
`exceptions.py` defines; the repository's own test expects
`ToolExecutionError` with an "Unknown tool" message) — so the unknown-tool
failure and an execution failure share one class, distinguishable only by
message text. -/
theorem c7_counterexample :
    (ToolRouter.execute adapterAlwaysNone "nonexistent_tool" []).1
      = .error (mkToolExecutionError "nonexistent_tool"
          ("Unknown tool: \x27nonexistent_tool\x27. Available: "
            ++ pyReprStrList available_tools))
    ∧ (match (ToolRouter.execute adapterAlwaysNone "nonexistent_tool" []).1 with
        | .error e => e.pyClass
        | .ok _ => "") = "ToolExecutionError"
    ∧ (match (ToolRouter.execute adapterAlwaysRaises "search_anime" []).1 with
        | .error e => e.pyClass
        | .ok _ => "") = "ToolExecutionError"
    ∧ ¬ ((match (ToolRouter.execute adapterAlwaysNone "nonexistent_tool" []).1 with
        | .error e => e.pyClass
        | .ok _ => "") = "UnknownTool") :=
  ⟨rfl, rfl, rfl, by decide⟩

/-- Claim C7 (amended): for every name not in the tool map and every argument
mapping and adapter, `execute` fails with a `ToolExecutionError` whose message
identifies the unknown tool, and performs NO adapter invocation. -/
theorem c7_unknown_tool_no_dispatch
    (adapter : String → String → List (String × PyVal) → Except PyExc PyVal)
    (tool_name : String) (arguments : List (String × PyVal))
    (hunk : toolMap.lookup tool_name = none) :
    ToolRouter.execute adapter tool_name arguments
      = (.error (mkToolExecutionError tool_name
          ("Unknown tool: \x27" ++ tool_name ++ "\x27. Available: "
            ++ pyReprStrList available_tools)), []) := by
  simp [ToolRouter.execute, hunk]

/-- Witness for C7 (amended) at a concrete input: `nonexistent_tool` is not
registered, and `execute` on it fails without dispatching. -/
theorem c7_witness :
    toolMap.lookup "nonexistent_tool" = none
    ∧ ToolRouter.execute adapterAlwaysRaises "nonexistent_tool" [("query", PyVal.pystr "x")]
      = (.error (mkToolExecutionError "nonexistent_tool"
          ("Unknown tool: \x27nonexistent_tool\x27. Available: "
            ++ pyReprStrList available_tools)), []) :=
  ⟨rfl, c7_unknown_tool_no_dispatch adapterAlwaysRaises "nonexistent_tool"
    [("query", PyVal.pystr "x")] rfl⟩

/-! The context service's retrieval filter and ordering. -/

/-- Shape of a ChromaDB `collection.query` result as consumed by
`retrieve_context` (context_service.py lines 155-169), already restricted to
the single query (`[0]` index): the documents in the order the index returned
them (nearest first — the external index's contract), and the optional
parallel `distances` and `metadatas` arrays. -/
structure ChromaQueryResult where
  documents : List String
  distances : Option (List ℚ)
  metadatas : Option (List (List (String × String)))

/-- Distance of hit `i`:
`results["distances"][0][i] if results["distances"] else 0`
(context_service.py line 161). An out-of-range index would raise in Python;
the theorems only use length-matched results, where `getD`'s default is never
exercised. -/
def hitDistance (res : ChromaQueryResult) (i : Nat) : ℚ :=
  match res.distances with
  | some ds => ds.getD i 0
  | none => 0

/-- Metadata of hit `i`:
`results["metadatas"][0][i] if results["metadatas"] else {}` (line 162). -/
def hitMetadata (res : ChromaQueryResult) (i : Nat) : List (String × String) :=
  match res.metadatas with
  | some ms => ms.getD i []
  | none => []

/-- Mirror of `ContextService.retrieve_context` (context_service.py lines
121-185) downstream of the external vector query: any raised exception
degrades to the empty list (lines 179-185); otherwise, for each returned
document in order, keep it exactly when its distance does not exceed the
similarity threshold, recording the 4-decimal-rounded distance (lines
157-169). -/
def retrieve_context (threshold : ℚ) (query : Except PyExc ChromaQueryResult) :
    List ContextRecord :=
  match query with
  | .error _ => []
  | .ok res =>
    res.documents.enum.filterMap (fun p =>
      if hitDistance res p.1 ≤ threshold then
        some { document := p.2, metadata := hitMetadata res p.1,
               distance := pyRound4 (hitDistance res p.1) }
      else none)

/-- Banker's rounding never undershoots the floor. -/
theorem le_roundHalfEven (q : ℚ) : ⌊q⌋ ≤ roundHalfEven q := by
  unfold roundHalfEven
  split_ifs <;> omega

/-- Banker's rounding never overshoots the floor plus one. -/
theorem roundHalfEven_le (q : ℚ) : roundHalfEven q ≤ ⌊q⌋ + 1 := by
  unfold roundHalfEven
  split_ifs <;> omega

/-- Banker's rounding is monotone. -/
theorem roundHalfEven_mono {a b : ℚ} (hab : a ≤ b) :
    roundHalfEven a ≤ roundHalfEven b := by
  rcases lt_or_eq_of_le (Int.floor_le_floor hab) with hf | hf
  · have h1 := roundHalfEven_le a
    have h2 := le_roundHalfEven b
    omega
  · have hfr : a - (⌊b⌋ : ℚ) ≤ b - (⌊b⌋ : ℚ) := sub_le_sub_right hab _
    unfold roundHalfEven
    rw [hf]
    split_ifs <;> first | omega | (exfalso; linarith)

/-- Rounding to four decimals is monotone. -/
theorem pyRound4_mono {a b : ℚ} (hab : a ≤ b) : pyRound4 a ≤ pyRound4 b := by
  unfold pyRound4
  have h := roundHalfEven_mono (mul_le_mul_of_nonneg_right hab (by norm_num : (0 : ℚ) ≤ 10000))
  have hc : ((roundHalfEven (a * 10000) : ℚ)) ≤ ((roundHalfEven (b * 10000) : ℚ)) := by
    exact_mod_cast h
  gcongr

/-- Index of an enumerated entry is below the list's length. -/
theorem fst_lt_length_of_mem_enum {l : List α} {p : Nat × α} (hp : p ∈ l.enum) :
    p.1 < l.length := by
  have h := List.mem_enum_iff_getElem?.mp hp
  rcases List.getElem?_eq_some.mp h with ⟨h1, _⟩
  exact h1

/-- Claim C8: for every threshold and every well-formed query result whose
distances come back ascending (the external nearest-neighbor index's
contract, spec §4.7), retrieval returns only records originating from hits
whose distance is at most the threshold (the threshold is a
maximum-acceptable-distance cutoff), and the returned list is ordered by
ascending distance. -/
theorem c8_threshold_filter_and_ascending_order (threshold : ℚ) (res : ChromaQueryResult)
    (hmono : ∀ i j, i < j → j < res.documents.length →
      hitDistance res i ≤ hitDistance res j) :
    (∀ r ∈ retrieve_context threshold (.ok res),
        ∃ i, i < res.documents.length ∧ hitDistance res i ≤ threshold
          ∧ r.distance = pyRound4 (hitDistance res i))
    ∧ (retrieve_context threshold (.ok res)).Sorted
        (fun r₁ r₂ => r₁.distance ≤ r₂.distance) := by
  constructor
  · intro r hr
    simp only [retrieve_context] at hr
    rw [List.mem_filterMap] at hr
    obtain ⟨p, hp, hf⟩ := hr
    have hlt : p.1 < res.documents.length := fst_lt_length_of_mem_enum hp
    by_cases hd : hitDistance res p.1 ≤ threshold
    · rw [if_pos hd] at hf
      injection hf with hf
      subst hf
      exact ⟨p.1, hlt, hd, rfl⟩
    · rw [if_neg hd] at hf
      exact absurd hf (by simp)
  · show List.Pairwise _ _
    simp only [retrieve_context]
    rw [List.pairwise_filterMap]
    have hpw : (res.documents.enum).Pairwise (fun p q => p.1 < q.1) := by
      have h1 : List.Pairwise (· < ·) (res.documents.enum.map Prod.fst) := by
        rw [List.enum_map_fst]
        exact List.pairwise_lt_range _
      rwa [List.pairwise_map] at h1
    refine List.Pairwise.imp_of_mem ?_ hpw
    intro p q hpmem hqmem hlt c hc d hd
    have hq : q.1 < res.documents.length := fst_lt_length_of_mem_enum hqmem
    by_cases hdp : hitDistance res p.1 ≤ threshold
    · rw [if_pos hdp] at hc
      by_cases hdq : hitDistance res q.1 ≤ threshold
      · rw [if_pos hdq] at hd
        rw [Option.mem_def] at hc hd
        injection hc with hc
        injection hd with hd
        subst hc
        subst hd
        exact pyRound4_mono (hmono p.1 q.1 hlt hq)
      · rw [if_neg hdq] at hd
        exact absurd hd (by simp)
    · rw [if_neg hdp] at hc
      exact absurd hc (by simp)

/-- A concrete two-hit query result with ascending distances. -/
def chromaResW : ChromaQueryResult :=
  { documents := ["Q: a\nA: b", "Q: c\nA: d"],
    distances := some [1 / 10, 2],
    metadatas := some [[("session_id", "s1")], [("session_id", "s1")]] }

/-- Witness for C8 at a concrete input: threshold 1.2 over `chromaResW`. -/
theorem c8_witness :
    (∀ r ∈ retrieve_context (12 / 10) (.ok chromaResW),
        ∃ i, i < chromaResW.documents.length ∧ hitDistance chromaResW i ≤ 12 / 10
          ∧ r.distance = pyRound4 (hitDistance chromaResW i))
    ∧ (retrieve_context (12 / 10) (.ok chromaResW)).Sorted
        (fun r₁ r₂ => r₁.distance ≤ r₂.distance) :=
  c8_threshold_filter_and_ascending_order (12 / 10) chromaResW (by
    intro i j hij hj
    have hj2 : j < 2 := by simpa [chromaResW] using hj
    interval_cases j
    · omega
    · have hi : i = 0 := by omega
      subst hi
      show hitDistance chromaResW 0 ≤ hitDistance chromaResW 1
      norm_num [hitDistance, chromaResW])

end ChatBot
